import Mathlib

/-!
Shallow embedding of the opencode DDEV plugin (`src/ddev.ts`) in Lean 4.
JavaScript strings are modelled as lists of characters (`Str`); the
regex-based substitutions of `cleanCommand` are modelled by explicit
scanning functions that follow the semantics of the source patterns.
Module-level mutable state (`ddevCache`, `currentSessionId`,
`hasNotifiedSession`, `hasAskedToStart`) becomes explicit state passing,
and the external `ddev describe -j` probe becomes an input (`ProbeResult`).
-/

namespace DdevPlugin

/-- JavaScript strings, modelled as lists of Unicode scalar values. -/
abbrev Str := List Char

/-- Embed a Lean string literal as a `Str`. -/
def strLit (s : String) : Str := s.data

/-- Single-quote character, written via its code point. -/
def squote : Char := Char.ofNat 39

/-- The character class `\s` of JavaScript regexes (WhiteSpace plus
LineTerminator); also the set trimmed by `String.prototype.trim`. -/
def jsWhitespace (c : Char) : Bool :=
  c == ' ' || c == '\t' || c == '\n' || c == '\r' ||
  c.toNat == 11 || c.toNat == 12 || c.toNat == 0xa0 || c.toNat == 0x1680 ||
  (0x2000 ≤ c.toNat && c.toNat ≤ 0x200a) || c.toNat == 0x2028 ||
  c.toNat == 0x2029 || c.toNat == 0x202f || c.toNat == 0x205f ||
  c.toNat == 0x3000 || c.toNat == 0xfeff

/-- JavaScript `s.startsWith(p)`: `jsStartsWith s p` is true when `p` is a
leading segment of `s`. -/
def jsStartsWith : Str → Str → Bool
  | _, [] => true
  | [], _ :: _ => false
  | b :: ss, a :: ps => a == b && jsStartsWith ss ps

/-- True when `needle` occurs somewhere inside `s` (substring test). -/
def occursIn (needle : Str) : Str → Bool
  | [] => jsStartsWith [] needle
  | c :: t => jsStartsWith (c :: t) needle || occursIn needle t

/-- JavaScript `String.prototype.trim`. -/
def jsTrim (s : Str) : Str :=
  ((s.dropWhile jsWhitespace).reverse.dropWhile jsWhitespace).reverse

/-- The expression `command.trim().split(/\s+/)[0]` from `shouldRunOnHost`
(`src/ddev.ts:303`): the leading run of non-whitespace characters of the
trimmed command (empty when the command is all whitespace). -/
def firstWord (s : Str) : Str :=
  (jsTrim s).takeWhile (fun c => !(jsWhitespace c))

/-- The constant `CONTAINER_ROOT` (`src/ddev.ts:11`). -/
def CONTAINER_ROOT : Str := strLit "/var/www/html"

/-- The constant `HOST_ONLY_COMMANDS` (`src/ddev.ts:12`). -/
def HOST_ONLY_COMMANDS : List Str :=
  [strLit "git", strLit "gh", strLit "docker", strLit "ddev"]

/-- The constant `CACHE_DURATION_MS` (`src/ddev.ts:13`). -/
def CACHE_DURATION_MS : Nat := 120000

/-- The fields of the `raw` object of `ddev describe -j` that the plugin
reads (`DdevRawData`, `src/ddev.ts:18`).  `none` models an absent field. -/
structure DdevRawData where
  shortroot : Option Str
  approot : Option Str
  status : Option Str
  deriving DecidableEq, Repr

/-- The cache record `DdevCache` (`src/ddev.ts:29`): cached raw data plus the
capture timestamp used for invalidation. -/
structure DdevCache where
  timestamp : Nat
  raw : DdevRawData
  deriving DecidableEq, Repr

/-- JavaScript truthiness of an optional string: `null`/`undefined` and the
empty string are falsy. -/
def jsTruthy : Option Str → Bool
  | none => false
  | some l => !l.isEmpty

/-- Model of `expandHomePath` (`src/ddev.ts:42`): a path starting with `~`
has its first `~` replaced by `process.env.HOME || process.env.USERPROFILE
|| ''`.  Since the guard ensures the path starts with `~`, the first
occurrence replaced by `String.prototype.replace` is the leading
character. -/
def expandHomePath (envHome envUserProfile : Option Str) (path : Str) : Str :=
  if !(jsStartsWith path (strLit "~")) then path
  else
    let homeDir := if jsTruthy envHome then envHome else envUserProfile
    let homeStr := match homeDir with
      | some h => h
      | none => []
    match path with
    | '~' :: rest => homeStr ++ rest
    | p => p

/-- Model of `getProjectRoot` (`src/ddev.ts:54`): `raw.shortroot ||
raw.approot`, tilde-expanded, or `null` when the cache is empty or the
field is falsy. -/
def getProjectRoot (cache : Option DdevCache) (envHome envUserProfile : Option Str) :
    Option Str :=
  match cache with
  | none => none
  | some c =>
    let rawPath := if jsTruthy c.raw.shortroot then c.raw.shortroot else c.raw.approot
    match rawPath with
    | some p => if p.isEmpty then none else some (expandHomePath envHome envUserProfile p)
    | none => none

/-- Model of `isRunning` (`src/ddev.ts:66`):
`ddevCache?.raw?.status === 'running'`. -/
def isRunning (cache : Option DdevCache) : Bool :=
  match cache with
  | some c => c.raw.status == some (strLit "running")
  | none => false

/-- Model of `isAvailable` (`src/ddev.ts:73`): `ddevCache !== null`. -/
def isAvailable (cache : Option DdevCache) : Bool :=
  cache.isSome

/-- The substitution `.replace(/^\//, '')`: strip a single leading slash. -/
def stripLeadingSlash : Str → Str
  | '/' :: t => t
  | t => t

/-- Model of `mapToContainerPath` (`src/ddev.ts:80`). -/
def mapToContainerPath (hostDir projectRoot : Str) : Str :=
  if !(jsStartsWith hostDir projectRoot) then CONTAINER_ROOT
  else
    let relativePath := stripLeadingSlash (hostDir.drop projectRoot.length)
    if relativePath.isEmpty then CONTAINER_ROOT
    else CONTAINER_ROOT ++ '/' :: relativePath

/-- Model of `getContainerWorkingDir` (`src/ddev.ts:99`), with the current
host directory and the (already resolved) project root as explicit
inputs. -/
def getContainerWorkingDir (directory : Str) (projectRoot : Option Str) : Str :=
  match projectRoot with
  | none => CONTAINER_ROOT
  | some root => mapToContainerPath directory root

/-- The container-to-host direction of the path translator, inlined in
`cleanCommand` (`src/ddev.ts:141`–144): strip the container root and a
leading slash, then append the remainder to the project root ("toHostPath"
in the specification's terms). -/
def toHostPath (containerDir projectRoot : Str) : Str :=
  let containerRelative := stripLeadingSlash (containerDir.drop CONTAINER_ROOT.length)
  if containerRelative.isEmpty then projectRoot
  else projectRoot ++ '/' :: containerRelative

/-- Characters admitted by the path-suffix run (everything except
whitespace and the two quote characters) in the substitution patterns of
`cleanCommand`. -/
def pathTokenChar (c : Char) : Bool :=
  !(jsWhitespace c || c == '"' || c == squote)

/-- One attempted match, at the start of `s`, of the pattern
`escapeRegex(lit)` followed by a captured group that is either a slash plus
a maximal run of path characters, or an empty capture at a
whitespace/quote/end boundary (the two regexes built at `src/ddev.ts:149`
and 161).  Returns the captured group (`none` for the empty capture, which
is falsy in the replacement callbacks) and the rest of the input after the
whole match. -/
def pathMatchAt (lit s : Str) : Option (Option Str × Str) :=
  if jsStartsWith s lit then
    match s.drop lit.length with
    | '/' :: t =>
      let run := t.takeWhile pathTokenChar
      some (some ('/' :: run), t.drop run.length)
    | c :: t =>
      if jsWhitespace c || c == '"' || c == squote then some (none, c :: t) else none
    | [] => some (none, [])
  else none

/-- Global-replace scan for the path patterns, with fuel (`fuel` is always
at least `s.length + 1` when called from `replacePath`, so the `0` case is
never reached).  A zero-width match (possible only when `lit` is empty)
advances by one character, as a JavaScript global replace does. -/
def replacePathGo (lit : Str) (repl : Option Str → Str) : Nat → Str → Str
  | 0, s => s
  | _ + 1, [] =>
    match pathMatchAt lit [] with
    | some (suf, _) => repl suf
    | none => []
  | fuel + 1, c :: t =>
    match pathMatchAt lit (c :: t) with
    | some (suf, rest) =>
      if rest.length < (c :: t).length then repl suf ++ replacePathGo lit repl fuel rest
      else repl suf ++ c :: replacePathGo lit repl fuel t
    | none => c :: replacePathGo lit repl fuel t

/-- The call `cleanedCommand.replace(regex, cb)` for the two
path-substitution regexes of `cleanCommand`. -/
def replacePath (lit : Str) (repl : Option Str → Str) (s : Str) : Str :=
  replacePathGo lit repl (s.length + 1) s

/-- The replacement callback of the working-directory substitution
(`src/ddev.ts:154`): `suffix ? suffix.slice(1) : '.'`. -/
def relRepl : Option Str → Str
  | some g => g.drop 1
  | none => ['.']

/-- The replacement callback of the project-root substitution
(`src/ddev.ts:166`): the container root when the capture is falsy,
otherwise the container root plus the captured suffix. -/
def rootRepl : Option Str → Str
  | some g => CONTAINER_ROOT ++ g
  | none => CONTAINER_ROOT

/-- The dot part of the redundant-cd pattern (`src/ddev.ts:175`): a bare
dot, a quoted dot, or an empty quote pair (same quote on both sides). -/
def cdDotPart (s : Str) : Option Str :=
  match s with
  | '.' :: r => some r
  | '"' :: '.' :: '"' :: r => some r
  | '"' :: '"' :: r => some r
  | c1 :: '.' :: c2 :: r => if c1 == squote && c2 == squote then some r else none
  | c1 :: c2 :: r => if c1 == squote && c2 == squote then some r else none
  | _ => none

/-- Match of the anchored redundant-cd regex of `src/ddev.ts:175` (optional
whitespace, `cd`, whitespace, a dot part, optional whitespace, `&&`,
optional whitespace) against the start of `s`; returns the rest after the
match. -/
def cdMatch (s : Str) : Option Str :=
  match (s.dropWhile jsWhitespace : Str) with
  | 'c' :: 'd' :: s2 =>
    match s2 with
    | c :: s3 =>
      if jsWhitespace c then
        match cdDotPart (s3.dropWhile jsWhitespace) with
        | some s5 =>
          match (s5.dropWhile jsWhitespace : Str) with
          | '&' :: '&' :: s7 => some (s7.dropWhile jsWhitespace)
          | _ => none
        | none => none
      else none
    | [] => none
  | _ => none

/-- The final substitution of `cleanCommand`: remove a redundant leading
`cd .` prefix when the anchored pattern matches. -/
def stripLeadingCd (s : Str) : Str :=
  match cdMatch s with
  | some rest => rest
  | none => s

/-- Model of `cleanCommand` (`src/ddev.ts:132`): working-directory paths
become relative paths, remaining project-root paths become container
paths, and a redundant leading `cd . &&` is removed.  `projectRoot = none`
models `getProjectRoot()` returning `null`. -/
def cleanCommand (directory : Str) (projectRoot : Option Str) (command : Str) : Str :=
  match projectRoot with
  | none => command
  | some root =>
    let containerWorkingDir := getContainerWorkingDir directory projectRoot
    let hostWorkingDir := toHostPath containerWorkingDir root
    let c1 := replacePath hostWorkingDir relRepl command
    let c2 := if hostWorkingDir ≠ root then replacePath root rootRepl c1 else c1
    stripLeadingCd c2

/-- Lower-case hexadecimal digit, as produced by the `\u00xx` escapes of
`JSON.stringify`. -/
def hexDigit (n : Nat) : Char :=
  if n < 10 then Char.ofNat ('0'.toNat + n) else Char.ofNat ('a'.toNat + (n - 10))

/-- Per-character escaping of `JSON.stringify` on strings: quote and
backslash get a backslash escape, the control characters BS/TAB/LF/FF/CR
get their short escapes, the other control characters below U+0020 get
`\u00xx`, everything else is copied verbatim. -/
def escapeJsonChar (c : Char) : Str :=
  if c = '"' then ['\\', '"']
  else if c = '\\' then ['\\', '\\']
  else if c = '\x08' then ['\\', 'b']
  else if c = '\x09' then ['\\', 't']
  else if c = '\x0a' then ['\\', 'n']
  else if c = '\x0c' then ['\\', 'f']
  else if c = '\x0d' then ['\\', 'r']
  else if c.toNat < 0x20 then
    ['\\', 'u', '0', '0', hexDigit (c.toNat / 16), hexDigit (c.toNat % 16)]
  else [c]

/-- Model of `JSON.stringify` on a string value: the escaped body in double
quotes. -/
def jsonStringify (s : Str) : Str :=
  '"' :: (s.map escapeJsonChar).flatten ++ ['"']

/-- Model of `wrapWithDdevExec` (`src/ddev.ts:311`). -/
def wrapWithDdevExec (directory : Str) (projectRoot : Option Str) (command : Str) : Str :=
  let cleanedCommand := cleanCommand directory projectRoot command
  let containerWorkingDir := getContainerWorkingDir directory projectRoot
  let escapedCommand := jsonStringify cleanedCommand
  strLit "ddev exec --dir=" ++ jsonStringify containerWorkingDir ++
    strLit " bash -c " ++ escapedCommand

/-- Model of `shouldRunOnHost` (`src/ddev.ts:298`). -/
def shouldRunOnHost (command : Str) : Bool :=
  if jsStartsWith command (strLit "ddev ") then true
  else decide (firstWord command ∈ HOST_ONLY_COMMANDS)

/-- The possible outcomes of the `ddev describe -j` probe as observed by
`refreshDdevCache`: non-zero exit, a thrown exception, unparseable JSON,
JSON without a `raw` object, or a `raw` object. -/
inductive ProbeResult where
  | exitNonzero
  | threw
  | parseError
  | noRaw
  | ok (raw : DdevRawData)
  deriving DecidableEq, Repr

/-- The body of `refreshDdevCache` after the cache-validity check
(`src/ddev.ts:254`–292): the probe runs; failures clear the cache, a
parseable probe with a status other than `running` stores
`{timestamp: 0, raw}`, and a `running` probe stores `{timestamp: now, raw}`. -/
def refreshProbeStep (now : Nat) : ProbeResult → Option DdevCache × Bool
  | .exitNonzero => (none, true)
  | .threw => (none, true)
  | .parseError => (none, true)
  | .noRaw => (none, true)
  | .ok raw =>
    if raw.status ≠ some (strLit "running") then (some ⟨0, raw⟩, true)
    else (some ⟨now, raw⟩, true)

/-- Model of `refreshDdevCache` (`src/ddev.ts:246`), as a state transition:
given the current cache, the current time (`Date.now()`), and what the
probe would report, return the new cache and whether the probe was
invoked.  A valid cache entry (`now - timestamp < CACHE_DURATION_MS`)
short-circuits without probing. -/
def refreshDdevCache (cache : Option DdevCache) (now : Nat) (probe : ProbeResult) :
    Option DdevCache × Bool :=
  match cache with
  | some c =>
    if now - c.timestamp < CACHE_DURATION_MS then (some c, false)
    else refreshProbeStep now probe
  | none => refreshProbeStep now probe

/-- The plugin's module-level mutable state (`src/ddev.ts:34`–37). -/
structure PluginState where
  ddevCache : Option DdevCache
  currentSessionId : Option Str
  hasNotifiedSession : Bool
  hasAskedToStart : Bool
  deriving DecidableEq, Repr

/-- The `session.created` branch of the `event` handler
(`src/ddev.ts:326`–331). -/
def sessionCreated (st : PluginState) (id : Str) : PluginState :=
  { st with currentSessionId := some id, hasNotifiedSession := false,
            hasAskedToStart := false }

/-- Model of `notifyDdevInSession` (`src/ddev.ts:206`): returns the new
state and the number of outbound messages sent (0 or 1). -/
def notifyDdevInSession (st : PluginState) : PluginState × Nat :=
  if st.hasNotifiedSession || !(jsTruthy st.currentSessionId) then (st, 0)
  else ({ st with hasNotifiedSession := true }, 1)

/-- Runs `n` sequential calls to `notifyDdevInSession`, accumulating the
number of outbound messages. -/
def runNotifies : PluginState → Nat → PluginState × Nat
  | st, 0 => (st, 0)
  | st, n + 1 =>
    let r := notifyDdevInSession st
    let rest := runNotifies r.1 n
    (rest.1, r.2 + rest.2)

/-- The inputs the plugin reads from its host environment: the current host
directory (`directory`) and the `HOME`/`USERPROFILE` environment
variables. -/
structure Env where
  directory : Str
  envHome : Option Str
  envUserProfile : Option Str

/-- The command transformation of the `tool.execute.before` hook
(`src/ddev.ts:334`): given the environment, the plugin state, the current
time and probe outcome (consumed by the inner `refreshDdevCache` call), the
tool name and the command, return the command that will be executed.  Both
not-running branches (ask-to-start and plain return) leave the command
unchanged. -/
def hookCommand (env : Env) (st : PluginState) (now : Nat) (probe : ProbeResult)
    (toolName command : Str) : Str :=
  if toolName ≠ strLit "bash" then command
  else if shouldRunOnHost command then command
  else
    let newCache := (refreshDdevCache st.ddevCache now probe).1
    if !(isAvailable newCache) then command
    else if !(isRunning newCache) && !st.hasAskedToStart then command
    else if !(isRunning newCache) then command
    else wrapWithDdevExec env.directory
      (getProjectRoot newCache env.envHome env.envUserProfile) command

end DdevPlugin

namespace DdevPlugin

/-- Raw probe data reporting a stopped project (used by concrete
counterexamples and witnesses). -/
def stoppedRaw : DdevRawData := ⟨none, none, some (strLit "stopped")⟩

/-- Raw probe data reporting a running project. -/
def runningRaw : DdevRawData := ⟨none, none, some (strLit "running")⟩

/-- A sample host environment. -/
def env0 : Env := ⟨strLit "/home/u/proj", none, none⟩

/-- A sample plugin state. -/
def st0 : PluginState := ⟨none, none, false, false⟩

/-- The relation "p is a descendant of or equal to r": either the same
path, or r plus a separator plus a nonempty remainder. -/
def PathDescendant (p r : Str) : Prop :=
  p = r ∨ ∃ s, s ≠ [] ∧ p = r ++ '/' :: s

/-- True exactly when the cache-validity check of `refreshDdevCache` fails,
so that a refresh at time `now` invokes the probe. -/
def cacheExpired (cache : Option DdevCache) (now : Nat) : Bool :=
  match cache with
  | none => true
  | some c => if now - c.timestamp < CACHE_DURATION_MS then false else true

/-! ### Helper lemmas -/

/-- A list prefixed by `p` starts with `p`. -/
theorem jsStartsWith_append (p t : Str) : jsStartsWith (p ++ t) p = true := by
  induction p with
  | nil => cases t <;> rfl
  | cons a p ih => simp [jsStartsWith, ih]

/-- Every list starts with itself. -/
theorem jsStartsWith_self (p : Str) : jsStartsWith p p = true := by
  have h := jsStartsWith_append p []
  simpa using h

/-- When `s` does not start with `lit`, the path pattern does not match at
the start of `s`. -/
theorem pathMatchAt_eq_none (lit s : Str) (h : jsStartsWith s lit = false) :
    pathMatchAt lit s = none := by
  simp [pathMatchAt, h]

/-- A scan that never finds the literal leaves the input unchanged. -/
theorem replacePathGo_id (lit : Str) (repl : Option Str → Str) :
    ∀ fuel s, occursIn lit s = false → replacePathGo lit repl fuel s = s
  | 0, _, _ => rfl
  | _ + 1, [], h => by
    have hs : jsStartsWith [] lit = false := by simpa [occursIn] using h
    simp [replacePathGo, pathMatchAt_eq_none lit [] hs]
  | fuel + 1, c :: t, h => by
    have h1 : jsStartsWith (c :: t) lit = false := by
      have := h
      simp only [occursIn, Bool.or_eq_false_iff] at this
      exact this.1
    have h2 : occursIn lit t = false := by
      have := h
      simp only [occursIn, Bool.or_eq_false_iff] at this
      exact this.2
    simp [replacePathGo, pathMatchAt_eq_none lit (c :: t) h1,
      replacePathGo_id lit repl fuel t h2]

/-- A substitution whose literal does not occur in the input is the
identity. -/
theorem replacePath_id (lit : Str) (repl : Option Str → Str) (s : Str)
    (h : occursIn lit s = false) : replacePath lit repl s = s :=
  replacePathGo_id lit repl (s.length + 1) s h

/-- When the redundant-cd pattern does not match, the strip is the
identity. -/
theorem stripLeadingCd_id (s : Str) (h : cdMatch s = none) :
    stripLeadingCd s = s := by
  simp [stripLeadingCd, h]

/-- A command in which neither the host working directory nor the project
root occurs, and which has no redundant leading cd, is a fixed point of
`cleanCommand`. -/
theorem cleanCommand_fixed (d r x : Str)
    (h1 : occursIn (toHostPath (mapToContainerPath d r) r) x = false)
    (h2 : occursIn r x = false) (h3 : cdMatch x = none) :
    cleanCommand d (some r) x = x := by
  simp only [cleanCommand, getContainerWorkingDir]
  rw [replacePath_id _ relRepl _ h1]
  split
  · rw [replacePath_id _ rootRepl _ h2, stripLeadingCd_id _ h3]
  · rw [stripLeadingCd_id _ h3]

/-- Mapping the project root itself into the container gives the container
root. -/
theorem mapToContainerPath_self (r : Str) :
    mapToContainerPath r r = CONTAINER_ROOT := by
  simp [mapToContainerPath, jsStartsWith_self, List.drop_length, stripLeadingSlash]

/-- Translating the container root back to the host gives the project
root. -/
theorem toHostPath_container_root (r : Str) :
    toHostPath CONTAINER_ROOT r = r := by
  simp [toHostPath, List.drop_length, stripLeadingSlash]

/-- The probe step always reports that the probe was invoked. -/
theorem refreshProbeStep_snd (now : Nat) (probe : ProbeResult) :
    (refreshProbeStep now probe).2 = true := by
  cases probe with
  | exitNonzero => rfl
  | threw => rfl
  | parseError => rfl
  | noRaw => rfl
  | ok raw =>
    simp only [refreshProbeStep]
    split <;> rfl

/-- A refresh that invoked the probe behaves exactly as the probe step. -/
theorem refresh_probed_eq (cache : Option DdevCache) (now : Nat) (probe : ProbeResult)
    (h : (refreshDdevCache cache now probe).2 = true) :
    refreshDdevCache cache now probe = refreshProbeStep now probe := by
  unfold refreshDdevCache at h ⊢
  cases cache with
  | none => rfl
  | some c =>
    by_cases hv : now - c.timestamp < CACHE_DURATION_MS
    · simp [hv] at h
    · simp [hv]

/-- A session id coming from a `session.created` event is truthy when it is
a nonempty string. -/
theorem jsTruthy_some_of_ne (id : Str) (h : id ≠ []) :
    jsTruthy (some id) = true := by
  cases id with
  | nil => exact absurd rfl h
  | cons a t => rfl

/-- Once the notified flag is set, further calls send nothing and do not
change the state. -/
theorem runNotifies_notified (st : PluginState) (h : st.hasNotifiedSession = true) :
    ∀ n, runNotifies st n = (st, 0)
  | 0 => rfl
  | n + 1 => by
    simp [runNotifies, notifyDdevInSession, h, runNotifies_notified st h n]

/-- From a state with an active session and a clear notified flag, any
positive number of calls sends exactly one message. -/
theorem runNotifies_fresh (st : PluginState) (hn : st.hasNotifiedSession = false)
    (hid : jsTruthy st.currentSessionId = true) (n : Nat) (h1 : 1 ≤ n) :
    (runNotifies st n).2 = 1 := by
  cases n with
  | zero => omega
  | succ m =>
    have hnot : notifyDdevInSession st = ({ st with hasNotifiedSession := true }, 1) := by
      simp [notifyDdevInSession, hn, hid]
    have hrest := runNotifies_notified { st with hasNotifiedSession := true } rfl m
    simp [runNotifies, hnot, hrest]

end DdevPlugin

namespace DdevPlugin

/-! ### Further cache lemmas -/

/-- Whether a refresh probes depends only on the cache and the clock, not on
what the probe would report. -/
theorem refresh_snd_eq (cache : Option DdevCache) (now : Nat) (probe : ProbeResult) :
    (refreshDdevCache cache now probe).2 = cacheExpired cache now := by
  cases cache with
  | none => simp [refreshDdevCache, cacheExpired, refreshProbeStep_snd]
  | some c =>
    by_cases hv : now - c.timestamp < CACHE_DURATION_MS
    · simp [refreshDdevCache, cacheExpired, hv]
    · simp [refreshDdevCache, cacheExpired, hv, refreshProbeStep_snd]

/-- With an expired (or absent) cache entry, a refresh is exactly the probe
step. -/
theorem refresh_expired_eq (cache : Option DdevCache) (now : Nat) (probe : ProbeResult)
    (h : cacheExpired cache now = true) :
    refreshDdevCache cache now probe = refreshProbeStep now probe := by
  cases cache with
  | none => rfl
  | some c =>
    by_cases hv : now - c.timestamp < CACHE_DURATION_MS
    · simp [cacheExpired, hv] at h
    · simp [refreshDdevCache, hv]

end DdevPlugin

namespace DdevPlugin

/-- Any list of the wrapped shape starts with `ddev `. -/
theorem jsStartsWith_ddev_shape (X : Str) :
    jsStartsWith (strLit "ddev exec --dir=" ++ X) (strLit "ddev ") = true := by
  have h : (strLit "ddev exec --dir=" : Str) = strLit "ddev " ++ strLit "exec --dir=" := by
    decide
  rw [h, List.append_assoc]
  exact jsStartsWith_append _ _

/-! ### Claim theorems -/

/-- C1: `wrap(c)` is exactly `ddev exec --dir=` ++ D ++ ` bash -c ` ++ C,
where D is the JSON string-literal encoding of the container working
directory and C is the JSON string-literal encoding of the cleaned
command; `wrap` is a total function, and with a null/absent project root
`clean` passes the command through unchanged and D encodes the container
root `/var/www/html`. -/
theorem C1_wrap_format (directory : Str) (projectRoot : Option Str) (command : Str) :
    wrapWithDdevExec directory projectRoot command =
      strLit "ddev exec --dir=" ++
        jsonStringify (getContainerWorkingDir directory projectRoot) ++
        strLit " bash -c " ++
        jsonStringify (cleanCommand directory projectRoot command) ∧
    (projectRoot = none →
      cleanCommand directory projectRoot command = command ∧
      getContainerWorkingDir directory projectRoot = CONTAINER_ROOT) := by
  refine ⟨rfl, fun h => ?_⟩
  subst h
  exact ⟨rfl, rfl⟩

/-- Witness for C1 at a concrete input with a null project root. -/
theorem C1_wrap_format_witness :
    wrapWithDdevExec (strLit "/home/u/proj") none (strLit "ls -la") =
      strLit "ddev exec --dir=" ++
        jsonStringify (getContainerWorkingDir (strLit "/home/u/proj") none) ++
        strLit " bash -c " ++
        jsonStringify (cleanCommand (strLit "/home/u/proj") none (strLit "ls -la")) ∧
    ((none : Option Str) = none →
      cleanCommand (strLit "/home/u/proj") none (strLit "ls -la") = strLit "ls -la" ∧
      getContainerWorkingDir (strLit "/home/u/proj") none = CONTAINER_ROOT) :=
  C1_wrap_format (strLit "/home/u/proj") none (strLit "ls -la")

/-- C2 counterexample: a completed refresh whose probe parsed and reported
the status `stopped` (not `running`) leaves a cache entry, contradicting
the claim that such a probe leaves no cache entry. -/
theorem C2_counterexample :
    stoppedRaw.status ≠ some (strLit "running") ∧
    (refreshDdevCache none 200000 (ProbeResult.ok stoppedRaw)).2 = true ∧
    (refreshDdevCache none 200000 (ProbeResult.ok stoppedRaw)).1 ≠ none := by
  exact ⟨by decide, by decide, by decide⟩

/-- C2 (amended): after a refresh that invoked the probe, a failed,
thrown, unparseable or raw-less probe leaves no cache entry, while a
parseable probe reporting a status other than `running` stores the entry
`{timestamp: 0, raw}`; that entry is treated as expired by any refresh at
a time of at least `CACHE_DURATION_MS` (every real clock value), so the
next command at such a time probes again. -/
theorem C2_nonrunning_not_cached (cache : Option DdevCache) (now later : Nat)
    (raw : DdevRawData) (p2 : ProbeResult)
    (hprobed : (refreshDdevCache cache now (ProbeResult.ok raw)).2 = true)
    (hstat : raw.status ≠ some (strLit "running"))
    (hlater : CACHE_DURATION_MS ≤ later) :
    (refreshDdevCache cache now ProbeResult.exitNonzero).1 = none ∧
    (refreshDdevCache cache now ProbeResult.threw).1 = none ∧
    (refreshDdevCache cache now ProbeResult.parseError).1 = none ∧
    (refreshDdevCache cache now ProbeResult.noRaw).1 = none ∧
    (refreshDdevCache cache now (ProbeResult.ok raw)).1 = some ⟨0, raw⟩ ∧
    (refreshDdevCache (refreshDdevCache cache now (ProbeResult.ok raw)).1 later p2).2 =
      true := by
  have hexp : cacheExpired cache now = true := by
    rw [← refresh_snd_eq cache now (ProbeResult.ok raw)]
    exact hprobed
  have hok : refreshDdevCache cache now (ProbeResult.ok raw) =
      refreshProbeStep now (ProbeResult.ok raw) :=
    refresh_expired_eq cache now (ProbeResult.ok raw) hexp
  have hv : (refreshProbeStep now (ProbeResult.ok raw)).1 = some ⟨0, raw⟩ := by
    simp [refreshProbeStep, hstat]
  refine ⟨?_, ?_, ?_, ?_, ?_, ?_⟩
  · rw [refresh_expired_eq cache now _ hexp]; rfl
  · rw [refresh_expired_eq cache now _ hexp]; rfl
  · rw [refresh_expired_eq cache now _ hexp]; rfl
  · rw [refresh_expired_eq cache now _ hexp]; rfl
  · rw [hok]; exact hv
  · rw [hok, hv, refresh_snd_eq]
    simpa [cacheExpired] using hlater

/-- Witness for the amended C2 at a concrete input. -/
theorem C2_nonrunning_not_cached_witness :
    (refreshDdevCache none 5 (ProbeResult.ok stoppedRaw)).2 = true ∧
    stoppedRaw.status ≠ some (strLit "running") ∧
    CACHE_DURATION_MS ≤ 120000 ∧
    ((refreshDdevCache none 5 ProbeResult.exitNonzero).1 = none ∧
      (refreshDdevCache none 5 ProbeResult.threw).1 = none ∧
      (refreshDdevCache none 5 ProbeResult.parseError).1 = none ∧
      (refreshDdevCache none 5 ProbeResult.noRaw).1 = none ∧
      (refreshDdevCache none 5 (ProbeResult.ok stoppedRaw)).1 = some ⟨0, stoppedRaw⟩ ∧
      (refreshDdevCache (refreshDdevCache none 5 (ProbeResult.ok stoppedRaw)).1 120000
          ProbeResult.exitNonzero).2 = true) :=
  ⟨by decide, by decide, by decide,
    C2_nonrunning_not_cached none 5 120000 stoppedRaw ProbeResult.exitNonzero
      (by decide) (by decide) (by decide)⟩

/-- C3: a refresh that observed a non-running probe result forces the
immediately following refresh (at any real clock time, i.e. any time of at
least `CACHE_DURATION_MS`, which every `Date.now()` value exceeds) to
invoke the probe again, regardless of how little time elapsed between the
two calls. -/
theorem C3_stopped_forces_reprobe (cache : Option DdevCache) (t0 t1 : Nat)
    (raw : DdevRawData) (probe2 : ProbeResult)
    (hstat : raw.status ≠ some (strLit "running"))
    (hprobed : (refreshDdevCache cache t0 (ProbeResult.ok raw)).2 = true)
    (ht : CACHE_DURATION_MS ≤ t1) :
    (refreshDdevCache (refreshDdevCache cache t0 (ProbeResult.ok raw)).1 t1 probe2).2 =
      true := by
  have e := refresh_probed_eq cache t0 (ProbeResult.ok raw) hprobed
  rw [e]
  have h1 : (refreshProbeStep t0 (ProbeResult.ok raw)).1 = some ⟨0, raw⟩ := by
    simp [refreshProbeStep, hstat]
  rw [h1, refresh_snd_eq]
  simpa [cacheExpired] using ht

/-- Witness for C3 at a concrete input: the second refresh happens one
possible instant later and still probes. -/
theorem C3_stopped_forces_reprobe_witness :
    stoppedRaw.status ≠ some (strLit "running") ∧
    (refreshDdevCache none 120000 (ProbeResult.ok stoppedRaw)).2 = true ∧
    CACHE_DURATION_MS ≤ 120001 ∧
    (refreshDdevCache (refreshDdevCache none 120000 (ProbeResult.ok stoppedRaw)).1 120001
        ProbeResult.exitNonzero).2 = true :=
  ⟨by decide, by decide, by decide,
    C3_stopped_forces_reprobe none 120000 120001 stoppedRaw ProbeResult.exitNonzero
      (by decide) (by decide) (by decide)⟩

/-- C4 counterexample: an entry captured at t0 = 200000 by a probe
reporting `stopped` ("or otherwise") is not reused by a refresh at
t1 = 200001 even though t1 - t0 < 120000: the second refresh invokes the
probe, because the stored timestamp is 0, not t0. -/
theorem C4_counterexample :
    stoppedRaw.status ≠ some (strLit "running") ∧
    (refreshDdevCache none 200000 (ProbeResult.ok stoppedRaw)).2 = true ∧
    200001 - 200000 < CACHE_DURATION_MS ∧
    (refreshDdevCache (refreshDdevCache none 200000 (ProbeResult.ok stoppedRaw)).1 200001
        ProbeResult.exitNonzero).2 = true := by
  exact ⟨by decide, by decide, by decide, by decide⟩

/-- C4 (amended): for an entry captured at time t0 by a probe reporting
`running`, a refresh at t1 with t1 - t0 < 120000 ms returns the cached
entry without probing, and a refresh with t1 - t0 >= 120000 ms invokes a
fresh probe. -/
theorem C4_running_cache_window (t0 t1 : Nat) (raw : DdevRawData) (probe2 : ProbeResult)
    (hstat : raw.status = some (strLit "running")) :
    (refreshDdevCache none t0 (ProbeResult.ok raw)).1 = some ⟨t0, raw⟩ ∧
    (t1 - t0 < CACHE_DURATION_MS →
      refreshDdevCache (some ⟨t0, raw⟩) t1 probe2 = (some ⟨t0, raw⟩, false)) ∧
    (CACHE_DURATION_MS ≤ t1 - t0 →
      (refreshDdevCache (some ⟨t0, raw⟩) t1 probe2).2 = true) := by
  refine ⟨?_, ?_, ?_⟩
  · simp [refreshDdevCache, refreshProbeStep, hstat]
  · intro h
    simp [refreshDdevCache, h]
  · intro h
    rw [refresh_snd_eq]
    have hlt : ¬ (t1 - t0 < CACHE_DURATION_MS) := not_lt.mpr h
    simp [cacheExpired, hlt]

/-- Witness for the amended C4 at a concrete input. -/
theorem C4_running_cache_window_witness :
    runningRaw.status = some (strLit "running") ∧
    ((refreshDdevCache none 1000 (ProbeResult.ok runningRaw)).1 =
        some ⟨1000, runningRaw⟩ ∧
      (2000 - 1000 < CACHE_DURATION_MS →
        refreshDdevCache (some ⟨1000, runningRaw⟩) 2000 ProbeResult.exitNonzero =
          (some ⟨1000, runningRaw⟩, false)) ∧
      (CACHE_DURATION_MS ≤ 2000 - 1000 →
        (refreshDdevCache (some ⟨1000, runningRaw⟩) 2000 ProbeResult.exitNonzero).2 =
          true)) :=
  ⟨by decide, C4_running_cache_window 1000 2000 runningRaw ProbeResult.exitNonzero
    (by decide)⟩

/-- C5: a command whose first whitespace-delimited token is one of `git`,
`gh`, `docker`, `ddev` passes through the interception hook unchanged,
for every cache state, clock value and probe outcome. -/
theorem C5_host_only_pass_through (env : Env) (st : PluginState) (now : Nat)
    (probe : ProbeResult) (command : Str)
    (h : firstWord command ∈ HOST_ONLY_COMMANDS) :
    hookCommand env st now probe (strLit "bash") command = command := by
  have hrun : shouldRunOnHost command = true := by
    unfold shouldRunOnHost
    split
    · rfl
    · exact decide_eq_true h
  simp [hookCommand, hrun]

/-- Witness for C5 at a concrete input. -/
theorem C5_host_only_pass_through_witness :
    firstWord (strLit "git status") ∈ HOST_ONLY_COMMANDS ∧
    hookCommand env0 st0 0 ProbeResult.exitNonzero (strLit "bash") (strLit "git status") =
      strLit "git status" :=
  ⟨by decide, C5_host_only_pass_through env0 st0 0 ProbeResult.exitNonzero
    (strLit "git status") (by decide)⟩

/-- C6: for a host path that is a descendant of or equal to the project
root, translating to the container and back is the identity. -/
theorem C6_round_trip (p r : Str) (h : PathDescendant p r) :
    toHostPath (mapToContainerPath p r) r = p := by
  rcases h with rfl | ⟨s, hs, rfl⟩
  · rw [mapToContainerPath_self, toHostPath_container_root]
  · obtain ⟨a, t, rfl⟩ : ∃ a t, s = a :: t := by
      cases s with
      | nil => exact absurd rfl hs
      | cons a t => exact ⟨a, t, rfl⟩
    have h1 : jsStartsWith (r ++ '/' :: a :: t) r = true := jsStartsWith_append r _
    have h2 : (r ++ '/' :: a :: t).drop r.length = '/' :: a :: t := List.drop_left r _
    have h3 : mapToContainerPath (r ++ '/' :: a :: t) r =
        CONTAINER_ROOT ++ '/' :: a :: t := by
      simp [mapToContainerPath, h1, h2, stripLeadingSlash]
    have h4 : (CONTAINER_ROOT ++ '/' :: a :: t).drop CONTAINER_ROOT.length =
        '/' :: a :: t := List.drop_left CONTAINER_ROOT _
    rw [h3]
    simp [toHostPath, h4, stripLeadingSlash]

/-- Witness for C6 at a concrete input. -/
theorem C6_round_trip_witness :
    PathDescendant (strLit "/x/p/sub") (strLit "/x/p") ∧
    toHostPath (mapToContainerPath (strLit "/x/p/sub") (strLit "/x/p")) (strLit "/x/p") =
      strLit "/x/p/sub" := by
  have hd : PathDescendant (strLit "/x/p/sub") (strLit "/x/p") :=
    Or.inr ⟨strLit "sub", by decide, by decide⟩
  exact ⟨hd, C6_round_trip _ _ hd⟩

/-- C7: a host path that is not under (not prefixed by) the project root
maps to exactly the container root, and the translation is a total
function. -/
theorem C7_outside_root_default (p r : Str) (h : jsStartsWith p r = false) :
    mapToContainerPath p r = CONTAINER_ROOT := by
  simp [mapToContainerPath, h]

/-- Witness for C7 at a concrete input. -/
theorem C7_outside_root_default_witness :
    jsStartsWith (strLit "/tmp/elsewhere") (strLit "/home/u/proj") = false ∧
    mapToContainerPath (strLit "/tmp/elsewhere") (strLit "/home/u/proj") =
      CONTAINER_ROOT :=
  ⟨by decide, C7_outside_root_default _ _ (by decide)⟩

/-- C8 counterexample: `clean` is not idempotent.  With project root `/a`
and host directory `/a`, the command `cd . && cd . && ls` cleans to
`cd . && ls` (the anchored redundant-cd substitution removes only one
prefix), and cleaning again yields `ls`. -/
theorem C8_counterexample :
    cleanCommand (strLit "/a") (some (strLit "/a"))
        (cleanCommand (strLit "/a") (some (strLit "/a")) (strLit "cd . && cd . && ls")) ≠
      cleanCommand (strLit "/a") (some (strLit "/a")) (strLit "cd . && cd . && ls") := by
  decide

/-- C8 (amended): `clean` is a fixed point on its output — hence idempotent —
whenever the cleaned command contains no occurrence of the host working
directory or of the project root and does not start with a redundant
`cd .` prefix. -/
theorem C8_clean_idempotent_restricted (d r c : Str)
    (h1 : occursIn (toHostPath (mapToContainerPath d r) r)
        (cleanCommand d (some r) c) = false)
    (h2 : occursIn r (cleanCommand d (some r) c) = false)
    (h3 : cdMatch (cleanCommand d (some r) c) = none) :
    cleanCommand d (some r) (cleanCommand d (some r) c) =
      cleanCommand d (some r) c :=
  cleanCommand_fixed d r (cleanCommand d (some r) c) h1 h2 h3

/-- Witness for the amended C8 at a concrete input. -/
theorem C8_clean_idempotent_restricted_witness :
    occursIn (toHostPath (mapToContainerPath (strLit "/a") (strLit "/a")) (strLit "/a"))
        (cleanCommand (strLit "/a") (some (strLit "/a")) (strLit "npm install")) = false ∧
    occursIn (strLit "/a")
        (cleanCommand (strLit "/a") (some (strLit "/a")) (strLit "npm install")) = false ∧
    cdMatch (cleanCommand (strLit "/a") (some (strLit "/a")) (strLit "npm install")) =
      none ∧
    cleanCommand (strLit "/a") (some (strLit "/a"))
        (cleanCommand (strLit "/a") (some (strLit "/a")) (strLit "npm install")) =
      cleanCommand (strLit "/a") (some (strLit "/a")) (strLit "npm install") :=
  ⟨by decide, by decide, by decide,
    C8_clean_idempotent_restricted (strLit "/a") (strLit "/a") (strLit "npm install")
      (by decide) (by decide) (by decide)⟩

/-- C9: after a session-created event with a nonempty session id, any
positive number of sequential `notifyDdevInSession` calls sends exactly one
outbound message, and a further session-created event resets the flag so
the next session again sends exactly one. -/
theorem C9_notify_once_per_session (st : PluginState) (id1 id2 : Str) (n m : Nat)
    (hid1 : id1 ≠ []) (hid2 : id2 ≠ []) (hn : 1 ≤ n) (hm : 1 ≤ m) :
    (runNotifies (sessionCreated st id1) n).2 = 1 ∧
    (runNotifies
        (sessionCreated (runNotifies (sessionCreated st id1) n).1 id2) m).2 = 1 := by
  constructor
  · exact runNotifies_fresh _ rfl (jsTruthy_some_of_ne id1 hid1) n hn
  · exact runNotifies_fresh _ rfl (jsTruthy_some_of_ne id2 hid2) m hm

/-- Witness for C9 at a concrete input. -/
theorem C9_notify_once_per_session_witness :
    strLit "s1" ≠ ([] : Str) ∧ strLit "s2" ≠ ([] : Str) ∧
    (1 : Nat) ≤ 3 ∧ (1 : Nat) ≤ 2 ∧
    ((runNotifies (sessionCreated st0 (strLit "s1")) 3).2 = 1 ∧
      (runNotifies
          (sessionCreated (runNotifies (sessionCreated st0 (strLit "s1")) 3).1
            (strLit "s2")) 2).2 = 1) :=
  ⟨by decide, by decide, by decide, by decide,
    C9_notify_once_per_session st0 (strLit "s1") (strLit "s2") 3 2
      (by decide) (by decide) (by decide) (by decide)⟩

/-- C10: every wrapped command starts with `ddev `, is therefore classified
as host-only, and a further pass of the interception hook leaves it
unchanged (no double wrapping). -/
theorem C10_no_double_wrap (env : Env) (st : PluginState) (now : Nat)
    (probe : ProbeResult) (projectRoot : Option Str) (command : Str) :
    jsStartsWith (wrapWithDdevExec env.directory projectRoot command)
        (strLit "ddev ") = true ∧
    shouldRunOnHost (wrapWithDdevExec env.directory projectRoot command) = true ∧
    hookCommand env st now probe (strLit "bash")
        (wrapWithDdevExec env.directory projectRoot command) =
      wrapWithDdevExec env.directory projectRoot command := by
  have h1 : jsStartsWith (wrapWithDdevExec env.directory projectRoot command)
      (strLit "ddev ") = true := by
    unfold wrapWithDdevExec
    exact jsStartsWith_ddev_shape _
  have h2 : shouldRunOnHost (wrapWithDdevExec env.directory projectRoot command) =
      true := by
    unfold shouldRunOnHost
    simp [h1]
  have h3 : hookCommand env st now probe (strLit "bash")
      (wrapWithDdevExec env.directory projectRoot command) =
      wrapWithDdevExec env.directory projectRoot command := by
    simp [hookCommand, h2]
  exact ⟨h1, h2, h3⟩

end DdevPlugin
